import Mathlib

/-!
Shallow embedding of the pynag repository's two implementation variants:
`src/nagios/__init__.py` (the `nagios` variant) and
`src/src/pynag/__init__.py` (the `pynag` variant).

Both modules define `RETURN_CODES`, `TimeoutFunction`, the `Execution*`
exception classes and a `Check` class whose `run` method invokes a
user-supplied check function under an alarm-based timeout, classifies the
outcome into one of five Nagios statuses and terminates through
`Check._exit`, which handles the optional cleanup callback, restores
stdout, prints one status line and calls `sys.exit` with the mapped
return code.  (As shown below, the cleanup handling in `_exit` crashes on
an eager attribute access whenever a callback is registered.)

Time is modelled by an abstract duration in whole seconds attached to each
callable invocation; a callable either finishes after that duration (with a
value, or raising an exception) or hangs forever.  Printed text is modelled
as the list of strings the callable writes to `sys.stdout` during its
execution.  The process-level result of a run is either a `sys.exit` with a
code and the lines that reached the real stdout, an uncaught exception
propagating out (a crash: no status line, no mapped code), or divergence.
-/

namespace Pynag

/-- Exceptions of the modelled code.  `timeoutException`, the four
`Execution*` classes and `TypeError`/`AttributeError` are the ones the
source raises or catches by name; `otherError` stands for any other Python
exception a user-supplied callable may raise (none of the `except` clauses
in the source match it). -/
inductive Exc where
  | timeoutException
  | executionCritical (msg : String)
  | executionWarning (msg : String)
  | executionUnknown (msg : String)
  | executionDependant (msg : String)
  | typeError (msg : String)
  | attributeError (attr : String)
  | otherError (msg : String)
  deriving DecidableEq, Repr

/-- Behaviour of one invocation of a Python callable: it finishes after
`duration` seconds having printed `printed` to `sys.stdout`, producing a
result or raising an exception, or it hangs forever (printing `printed`
along the way). -/
inductive CallBehavior (α : Type) where
  | finishes (duration : Nat) (printed : List String) (result : Except Exc α)
  | hangs (printed : List String)
  deriving Repr

/-- Outcome of an invocation as seen by the caller: the call returns
control (with the text printed meanwhile and a normal or exceptional
result), or never returns. -/
inductive CallOutcome (α : Type) where
  | completes (printed : List String) (result : Except Exc α)
  | diverges (printed : List String)
  deriving Repr

/-- `TimeoutFunction.__call__` of src/nagios/__init__.py lines 89-97:
`signal.alarm(self.timeout)` is unconditional; since `signal.alarm(0)`
cancels any pending alarm, a timeout of 0 schedules no alarm and the
wrapped function runs unbounded.  With a positive timeout the alarm fires
after `timeout` seconds and the installed handler raises
`TimeoutException`; an exception raised by the function itself before the
alarm propagates unchanged. -/
def TimeoutFunction.callNagios (timeout : Nat) (b : CallBehavior α) : CallOutcome α :=
  match b with
  | .finishes d printed r =>
      if timeout ≠ 0 ∧ timeout ≤ d then .completes printed (.error .timeoutException)
      else .completes printed r
  | .hangs printed =>
      if timeout ≠ 0 then .completes printed (.error .timeoutException)
      else .diverges printed

/-- `TimeoutFunction.__call__` of src/src/pynag/__init__.py lines 91-103:
`if not self.timeout: return self.function(*args, **kwargs)` short-circuits
a zero timeout; otherwise the alarm-based bound is installed as in the
nagios variant. -/
def TimeoutFunction.callPynag (timeout : Nat) (b : CallBehavior α) : CallOutcome α :=
  if timeout = 0 then
    match b with
    | .finishes _ printed r => .completes printed r
    | .hangs printed => .diverges printed
  else
    match b with
    | .finishes d printed r =>
        if timeout ≤ d then .completes printed (.error .timeoutException)
        else .completes printed r
    | .hangs printed => .completes printed (.error .timeoutException)

/-- A plain invocation of the callable, with no timeout wrapper at all. -/
def directCall (b : CallBehavior α) : CallOutcome α :=
  match b with
  | .finishes _ printed r => .completes printed r
  | .hangs printed => .diverges printed

/-- The two implementation variants in the repository. -/
inductive Variant where
  | nagios
  | pynag
  deriving DecidableEq, Repr

/-- Dispatch to the variant's own `TimeoutFunction`. -/
def TimeoutFunction.call (v : Variant) (timeout : Nat) (b : CallBehavior α) : CallOutcome α :=
  match v with
  | .nagios => TimeoutFunction.callNagios timeout b
  | .pynag => TimeoutFunction.callPynag timeout b

/-- Did the wrapped invocation end by the timeout signal? -/
def CallOutcome.timedOut : CallOutcome α → Bool
  | .completes _ (.error .timeoutException) => true
  | _ => false

/-- `RETURN_CODES` dict, identical in both variants
(src/nagios/__init__.py lines 27-33, src/src/pynag/__init__.py
lines 29-35). -/
def RETURN_CODES : List (String × Nat) :=
  [("OK", 0), ("WARNING", 1), ("CRITICAL", 2), ("UNKNOWN", 3), ("DEPENDANT", 4)]

/-- `RETURN_CODES[type]`; `none` models a `KeyError`. -/
def returnCode (type : String) : Option Nat :=
  List.lookup type RETURN_CODES

/-- The status line `print "%s %s: %s" % (self.name, type, message)`
(src/nagios/__init__.py line 214, src/src/pynag/__init__.py line 206). -/
def statusLine (name type message : String) : String :=
  name ++ " " ++ type ++ ": " ++ message

/-- Python `"%f" % t` for a non-negative integer `t`: fixed point with six
decimal places. -/
def formatFloatOfNat (t : Nat) : String :=
  toString t ++ ".000000"

/-- The timeout message
`"Timeout reached (%f second%s)" % (options.timeout, (options.timeout > 1) and "s" or "")`
(src/nagios/__init__.py line 330, src/src/pynag/__init__.py
lines 309-310; the format string is the same in both variants). -/
def timeoutMessage (t : Nat) : String :=
  "Timeout reached (" ++ formatFloatOfNat t ++ " second" ++ (if t > 1 then "s" else "") ++ ")"

/-- Status under which a check timeout exits: `self.critical(...)` in the
nagios variant (src/nagios/__init__.py line 330), `self.unknown(...)` in
the pynag variant (src/src/pynag/__init__.py line 310). -/
def timeoutStatus : Variant → String
  | .nagios => "CRITICAL"
  | .pynag => "UNKNOWN"

/-- The mutable per-instance state a `Check` carries into `_exit`:
`self.name`, `self.cleanup_callback`, `self.cleanup_timeout` and
`self.start_time` (absent until `run` assigns it). -/
structure CheckState where
  name : String
  cleanup_callback : Option (CallBehavior Unit)
  cleanup_timeout : Nat
  start_time : Option Nat
  deriving Repr

/-- Configuration of a `Check` as `run` begins: its name, the behaviour of
the check function on this invocation, and the registered cleanup
callback (if any; as `Check._exit` shows, a registered callback's
behaviour is never reached). -/
structure CheckConfig where
  name : String
  check : CallBehavior String
  cleanup_callback : Option (CallBehavior Unit)
  deriving Repr

/-- Parsed command-line options relevant to `run`: `options.verbose`,
`options.timeout` and `options.cleanup_timeout`. -/
structure Options where
  verbose : Bool
  timeout : Nat
  cleanup_timeout : Nat
  deriving DecidableEq, Repr

/-- Process-level result of a code path that is supposed to terminate the
process: `exited printed code` is a `sys.exit(code)` after the lines
`printed` reached the real stdout; `crashed printed e` is the exception `e`
propagating uncaught (no status line, no mapped exit code); `hangsForever`
is divergence (an unbounded callable that never returns). -/
inductive ExitResult where
  | exited (printed : List String) (code : Nat)
  | crashed (printed : List String) (e : Exc)
  | hangsForever (printed : List String)
  deriving DecidableEq, Repr

/-- Lines printed earlier in the run are prepended to whatever the rest of
the path prints. -/
def ExitResult.prependOutput (out : List String) : ExitResult → ExitResult
  | .exited p c => .exited (out ++ p) c
  | .crashed p e => .crashed (out ++ p) e
  | .hangsForever p => .hangsForever (out ++ p)

/-- Did the path terminate through the Nagios exit mechanism
(status line printed, `sys.exit` with a mapped code)? -/
def ExitResult.isExited : ExitResult → Bool
  | .exited _ _ => true
  | _ => false

/-- The tail of `_exit` once the cleanup phase is over: restore stdout,
print the status line, `sys.exit(RETURN_CODES[type])`. -/
def finishExit (name type message : String) : ExitResult :=
  match returnCode type with
  | some code => .exited [statusLine name type message] code
  | none => .crashed [] (.otherError "KeyError")

/-- `Check._exit` (src/nagios/__init__.py lines 191-216,
src/src/pynag/__init__.py lines 183-207).  It first evaluates
`time.time() - self.start_time`, which raises `AttributeError` when `run`
has not yet assigned `self.start_time`.  If a cleanup callback is
registered, the debug call
`nagios_debug("Invoking cleanup callback ...", self.cleanup_callback.function.__name__)`
(src/nagios/__init__.py line 202, src/src/pynag/__init__.py line 194)
evaluates `self.cleanup_callback.function.__name__` eagerly at the call
site, whether or not DEBUG is enabled.  `set_cleanup` only registers
callables whose `__name__` its own debug line can read — plain
functions — and a plain function has no `function` attribute, so this
access raises `AttributeError` before the callback is invoked, before
stdout is restored and before anything is printed: the
`TimeoutFunction(self.cleanup_callback, self.cleanup_timeout)` invocation
and its `except TimeoutException: pass` just below (nagios lines 203-207,
pynag lines 195-199) are unreachable for every callback `set_cleanup` can
register.  With no callback registered, stdout is restored, the status
line is printed and `sys.exit(RETURN_CODES[type])` is called.
`suppressed` records whether `sys.stdout` is currently the `NullStream`
installed by `run` in non-verbose mode (nothing in `_exit` prints through
it on either path, so it does not affect the result). -/
def Check._exit (_v : Variant) (c : CheckState) (_suppressed : Bool)
    (type message : String) : ExitResult :=
  match c.start_time with
  | none => .crashed [] (.attributeError "start_time")
  | some _ =>
    match c.cleanup_callback with
    | none => finishExit c.name type message
    | some _ => .crashed [] (.attributeError "function")

/-- `Check.critical` (src/nagios/__init__.py lines 218-220). -/
def Check.critical (v : Variant) (c : CheckState) (suppressed : Bool) (m : String) : ExitResult :=
  Check._exit v c suppressed "CRITICAL" m

/-- `Check.warning` (src/nagios/__init__.py lines 222-224). -/
def Check.warning (v : Variant) (c : CheckState) (suppressed : Bool) (m : String) : ExitResult :=
  Check._exit v c suppressed "WARNING" m

/-- `Check.success` (src/nagios/__init__.py lines 226-228). -/
def Check.success (v : Variant) (c : CheckState) (suppressed : Bool) (m : String) : ExitResult :=
  Check._exit v c suppressed "OK" m

/-- `Check.unknown` (src/nagios/__init__.py lines 230-232). -/
def Check.unknown (v : Variant) (c : CheckState) (suppressed : Bool) (m : String) : ExitResult :=
  Check._exit v c suppressed "UNKNOWN" m

/-- `Check.dependant` (src/nagios/__init__.py lines 234-236). -/
def Check.dependant (v : Variant) (c : CheckState) (suppressed : Bool) (m : String) : ExitResult :=
  Check._exit v c suppressed "DEPENDANT" m

/-- The state a fresh `Check` has after `__init__`
(src/nagios/__init__.py lines 151-189, src/src/pynag/__init__.py
lines 154-181): no cleanup callback, `self.cleanup_timeout = 60`
hard-coded (the constructor's `cleanup_timeout` parameter only seeds the
option default), and no `start_time` attribute yet. -/
def Check.init (name : String) : CheckState :=
  { name := name
    cleanup_callback := none
    cleanup_timeout := 60
    start_time := none }

/-- The argument given to `set_cleanup`: `None`, a plain function (which is
callable and has a `__name__`), or a non-callable value. -/
inductive CleanupArg where
  | noneArg
  | callableFunc (b : CallBehavior Unit)
  | notCallable
  deriving Repr

/-- `Check.set_cleanup` (src/nagios/__init__.py lines 238-258,
src/src/pynag/__init__.py lines 229-246).  A non-callable, non-None
argument raises `TypeError`.  Otherwise the debug line
`nagios_debug("Registered callback function named \x22%s\x22 ...", cleanup.__name__, cleanup)`
evaluates `cleanup.__name__` eagerly at the call site (in both variants,
whether or not DEBUG is set), so the `None` path raises `AttributeError`
before ever reaching `self.cleanup_callback = cleanup`; the previously
registered callback stays in place.  The result is the new value of
`self.cleanup_callback`, or the exception raised. -/
def Check.set_cleanup (_current : Option (CallBehavior Unit)) (arg : CleanupArg) :
    Except Exc (Option (CallBehavior Unit)) :=
  match arg with
  | .notCallable => .error (.typeError "Cleanup callback argument must be a callable object")
  | .noneArg => .error (.attributeError "__name__")
  | .callableFunc b => .ok (some b)

/-- `Check.run` (src/nagios/__init__.py lines 297-349,
src/src/pynag/__init__.py lines 276-329).  After argument parsing (the
resolved options are taken as input), `run` stores
`options.cleanup_timeout`, records `self.start_time`, diverts stdout to a
`NullStream` unless verbose, invokes the check through
`TimeoutFunction(self.check, options.timeout)` and classifies:
`TimeoutException` exits under the variant's timeout status with the
formatted timeout message; each `Execution*` exception exits under its
status with the exception's message; no exception exits `OK` with the
returned value; any other exception propagates out of `run` uncaught. -/
def Check.run (v : Variant) (cfg : CheckConfig) (opts : Options) : ExitResult :=
  let st : CheckState :=
    { name := cfg.name
      cleanup_callback := cfg.cleanup_callback
      cleanup_timeout := opts.cleanup_timeout
      start_time := some 0 }
  let suppressed := !opts.verbose
  match TimeoutFunction.call v opts.timeout cfg.check with
  | .diverges printed => .hangsForever (if suppressed then [] else printed)
  | .completes printed r =>
    let pre := if suppressed then [] else printed
    match r with
    | .ok msg => (Check._exit v st suppressed "OK" msg).prependOutput pre
    | .error .timeoutException =>
        (Check._exit v st suppressed (timeoutStatus v) (timeoutMessage opts.timeout)).prependOutput pre
    | .error (.executionCritical m) =>
        (Check._exit v st suppressed "CRITICAL" m).prependOutput pre
    | .error (.executionWarning m) =>
        (Check._exit v st suppressed "WARNING" m).prependOutput pre
    | .error (.executionUnknown m) =>
        (Check._exit v st suppressed "UNKNOWN" m).prependOutput pre
    | .error (.executionDependant m) =>
        (Check._exit v st suppressed "DEPENDANT" m).prependOutput pre
    | .error e => .crashed pre e

/-- The `try`/`except` ladder of `run`, applied to the result of the timed
check invocation: the status and message `run` exits under, or `none` when
the exception matches no `except` clause. -/
def classifyResult (v : Variant) (timeout : Nat) : Except Exc String → Option (String × String)
  | .ok msg => some ("OK", msg)
  | .error .timeoutException => some (timeoutStatus v, timeoutMessage timeout)
  | .error (.executionCritical m) => some ("CRITICAL", m)
  | .error (.executionWarning m) => some ("WARNING", m)
  | .error (.executionUnknown m) => some ("UNKNOWN", m)
  | .error (.executionDependant m) => some ("DEPENDANT", m)
  | .error _ => none

/-- The classification step of `run` in isolation: the status and message
`run` would exit under, or `none` when the run does not reach any of the
five classifications (the check call diverges, or raises an exception no
`except` clause matches). -/
def Check.classify (v : Variant) (timeout : Nat) (b : CallBehavior String) :
    Option (String × String) :=
  match TimeoutFunction.call v timeout b with
  | .diverges _ => none
  | .completes _ r => classifyResult v timeout r

/-- `leadsWith needle hay`: `needle` is an initial run of `hay`. -/
def leadsWith : List Char → List Char → Bool
  | [], _ => true
  | _ :: _, [] => false
  | a :: as, b :: bs => a == b && leadsWith as bs

/-- `occursIn needle hay`: `needle` occurs contiguously somewhere in
`hay`. -/
def occursIn (needle : List Char) : List Char → Bool
  | [] => needle.isEmpty
  | b :: bs => leadsWith needle (b :: bs) || occursIn needle bs

/-- Substring test on strings. -/
def strContains (hay needle : String) : Bool :=
  occursIn needle.toList hay.toList

/-!
## Lemmas about the embedding
-/

/-- The alarm facility makes the two `TimeoutFunction.__call__` bodies
behave identically: `signal.alarm(0)` schedules no alarm, which is exactly
the pynag variant's explicit zero-timeout short-circuit. -/
theorem callNagios_eq_callPynag (timeout : Nat) (b : CallBehavior α) :
    TimeoutFunction.callNagios timeout b = TimeoutFunction.callPynag timeout b := by
  cases b with
  | finishes d printed r =>
    by_cases h : timeout = 0 <;>
      simp [TimeoutFunction.callNagios, TimeoutFunction.callPynag, h]
  | hangs printed =>
    by_cases h : timeout = 0 <;>
      simp [TimeoutFunction.callNagios, TimeoutFunction.callPynag, h]

/-- Either variant's timed call agrees with the pynag variant's. -/
theorem call_eq_callPynag (v : Variant) (timeout : Nat) (b : CallBehavior α) :
    TimeoutFunction.call v timeout b = TimeoutFunction.callPynag timeout b := by
  cases v with
  | nagios => exact callNagios_eq_callPynag timeout b
  | pynag => rfl

/-- A callable that finishes before the deadline (or under a disabled
deadline) completes with its own result. -/
theorem call_finishes_within (v : Variant) (t d : Nat) (printed : List String)
    (r : Except Exc α) (h : t = 0 ∨ d < t) :
    TimeoutFunction.call v t (.finishes d printed r) = .completes printed r := by
  rcases h with h | h
  · cases v <;>
      simp [TimeoutFunction.call, TimeoutFunction.callNagios, TimeoutFunction.callPynag, h]
  · cases v <;>
      simp [TimeoutFunction.call, TimeoutFunction.callNagios, TimeoutFunction.callPynag,
        Nat.not_le.mpr h]

/-- A hanging callable under a positive deadline completes by the timeout
signal. -/
theorem call_hangs_timesOut (v : Variant) (t : Nat) (printed : List String)
    (h : t ≠ 0) :
    TimeoutFunction.call v t (CallBehavior.hangs printed : CallBehavior α) =
      .completes printed (.error .timeoutException) := by
  cases v <;>
    simp [TimeoutFunction.call, TimeoutFunction.callNagios, TimeoutFunction.callPynag, h]

/-- `RETURN_CODES` at each of the five status words. -/
theorem returnCode_OK : returnCode "OK" = some 0 := rfl

/-- `RETURN_CODES` at WARNING. -/
theorem returnCode_WARNING : returnCode "WARNING" = some 1 := rfl

/-- `RETURN_CODES` at CRITICAL. -/
theorem returnCode_CRITICAL : returnCode "CRITICAL" = some 2 := rfl

/-- `RETURN_CODES` at UNKNOWN. -/
theorem returnCode_UNKNOWN : returnCode "UNKNOWN" = some 3 := rfl

/-- `RETURN_CODES` at DEPENDANT. -/
theorem returnCode_DEPENDANT : returnCode "DEPENDANT" = some 4 := rfl

/-- `_exit` behaves identically in the two variants: the crash on the
eager `self.cleanup_callback.function.__name__` access happens in both,
and the no-callback path is variant-independent. -/
theorem exit_variant_irrelevant (st : CheckState) (suppressed : Bool) (type msg : String) :
    Check._exit .nagios st suppressed type msg = Check._exit .pynag st suppressed type msg :=
  rfl

/-- `_exit` crashes with `AttributeError` on the eager
`self.cleanup_callback.function.__name__` access whenever a cleanup
callback is registered, whatever its behaviour would have been. -/
theorem exit_crashes_of_registered_callback (v : Variant) (st : CheckState)
    (suppressed : Bool) (type msg : String) (t0 : Nat) (cb : CallBehavior Unit)
    (hst : st.start_time = some t0) (hsome : st.cleanup_callback = some cb) :
    Check._exit v st suppressed type msg = .crashed [] (.attributeError "function") := by
  simp [Check._exit, hst, hsome]

/-- Master lemma: when the timed check invocation returns control, its
result is matched by one of the `except` clauses (or the `else`), and no
cleanup callback is registered, `run` terminates through the exit
mechanism with the classified status's mapped code; the output is the
check's visible text followed by the status line. -/
theorem run_eq_exited (v : Variant) (cfg : CheckConfig) (opts : Options)
    (printed : List String) (r : Except Exc String) (type msg : String) (code : Nat)
    (hcall : TimeoutFunction.call v opts.timeout cfg.check = .completes printed r)
    (hr : classifyResult v opts.timeout r = some (type, msg))
    (hcode : returnCode type = some code)
    (hnone : cfg.cleanup_callback = none) :
    Check.run v cfg opts =
      .exited ((if opts.verbose then printed else []) ++
        [statusLine cfg.name type msg]) code := by
  cases r with
  | ok m =>
    simp only [classifyResult, Option.some.injEq, Prod.mk.injEq] at hr
    obtain ⟨hty, hm⟩ := hr
    subst hty hm
    cases hv : opts.verbose <;>
      simp_all [Check.run, Check._exit, hcall, hnone, finishExit, hcode,
        ExitResult.prependOutput]
  | error e =>
    cases e with
    | timeoutException =>
      simp only [classifyResult, Option.some.injEq, Prod.mk.injEq] at hr
      obtain ⟨hty, hm⟩ := hr
      subst hty hm
      cases hv : opts.verbose <;>
        simp_all [Check.run, Check._exit, hcall, hnone, finishExit, hcode,
          ExitResult.prependOutput]
    | executionCritical m =>
      simp only [classifyResult, Option.some.injEq, Prod.mk.injEq] at hr
      obtain ⟨hty, hm⟩ := hr
      subst hty hm
      cases hv : opts.verbose <;>
        simp_all [Check.run, Check._exit, hcall, hnone, finishExit, hcode,
          ExitResult.prependOutput]
    | executionWarning m =>
      simp only [classifyResult, Option.some.injEq, Prod.mk.injEq] at hr
      obtain ⟨hty, hm⟩ := hr
      subst hty hm
      cases hv : opts.verbose <;>
        simp_all [Check.run, Check._exit, hcall, hnone, finishExit, hcode,
          ExitResult.prependOutput]
    | executionUnknown m =>
      simp only [classifyResult, Option.some.injEq, Prod.mk.injEq] at hr
      obtain ⟨hty, hm⟩ := hr
      subst hty hm
      cases hv : opts.verbose <;>
        simp_all [Check.run, Check._exit, hcall, hnone, finishExit, hcode,
          ExitResult.prependOutput]
    | executionDependant m =>
      simp only [classifyResult, Option.some.injEq, Prod.mk.injEq] at hr
      obtain ⟨hty, hm⟩ := hr
      subst hty hm
      cases hv : opts.verbose <;>
        simp_all [Check.run, Check._exit, hcall, hnone, finishExit, hcode,
          ExitResult.prependOutput]
    | typeError m => simp [classifyResult] at hr
    | attributeError m => simp [classifyResult] at hr
    | otherError m => simp [classifyResult] at hr

/-- The last of a list of printed lines ending in one fixed line. -/
theorem getLast?_append_singleton (l : List α) (a : α) : (l ++ [a]).getLast? = some a := by
  induction l with
  | nil => rfl
  | cons x xs ih =>
    cases hx : xs ++ [a] with
    | nil => simp at hx
    | cons y ys => rw [List.cons_append, hx, List.getLast?_cons_cons, ← hx, ih]

/-- Every status produced by the classification step sits in the
`RETURN_CODES` table, at its fixed code. -/
theorem classify_returnCode (v : Variant) (t : Nat) (b : CallBehavior String)
    (type msg : String) (h : Check.classify v t b = some (type, msg)) :
    ∃ code, returnCode type = some code ∧ (type, code) ∈ RETURN_CODES := by
  unfold Check.classify at h
  cases hcall : TimeoutFunction.call v t b with
  | diverges p => simp [hcall] at h
  | completes p r =>
    rw [hcall] at h
    cases r with
    | ok m =>
      simp only [classifyResult, Option.some.injEq, Prod.mk.injEq] at h
      obtain ⟨hty, _⟩ := h
      subst hty
      exact ⟨0, rfl, by decide⟩
    | error e =>
      cases e with
      | timeoutException =>
        simp only [classifyResult, Option.some.injEq, Prod.mk.injEq] at h
        obtain ⟨hty, _⟩ := h
        subst hty
        cases v with
        | nagios => exact ⟨2, rfl, by decide⟩
        | pynag => exact ⟨3, rfl, by decide⟩
      | executionCritical m =>
        simp only [classifyResult, Option.some.injEq, Prod.mk.injEq] at h
        obtain ⟨hty, _⟩ := h
        subst hty
        exact ⟨2, rfl, by decide⟩
      | executionWarning m =>
        simp only [classifyResult, Option.some.injEq, Prod.mk.injEq] at h
        obtain ⟨hty, _⟩ := h
        subst hty
        exact ⟨1, rfl, by decide⟩
      | executionUnknown m =>
        simp only [classifyResult, Option.some.injEq, Prod.mk.injEq] at h
        obtain ⟨hty, _⟩ := h
        subst hty
        exact ⟨3, rfl, by decide⟩
      | executionDependant m =>
        simp only [classifyResult, Option.some.injEq, Prod.mk.injEq] at h
        obtain ⟨hty, _⟩ := h
        subst hty
        exact ⟨4, rfl, by decide⟩
      | typeError m => simp [classifyResult] at h
      | attributeError m => simp [classifyResult] at h
      | otherError m => simp [classifyResult] at h

/-!
## Claims
-/

/-- Claim C1: every run of `Check.run` that reaches one of the five
outcome classifications (OK, WARNING, CRITICAL, UNKNOWN, DEPENDANT) and
terminates through the exit mechanism exits with that classification's
respective code 0, 1, 2, 3, 4 of the fixed `RETURN_CODES` table, and its
final printed line is exactly `"<name> <STATUS>: <message>"` for that
classification, so the first word after the name is the status word.
This is unconditional over configurations: every mechanism exit of `run`
is covered (a registered cleanup callback yields no mechanism exit at
all — see the C3 analysis). -/
theorem run_exit_code_and_status_line_match_classification
    (v : Variant) (cfg : CheckConfig) (opts : Options) (out : List String) (code : Nat)
    (hexit : Check.run v cfg opts = .exited out code) :
    ∃ type msg,
      Check.classify v opts.timeout cfg.check = some (type, msg) ∧
      returnCode type = some code ∧
      (type, code) ∈ RETURN_CODES ∧
      out.getLast? = some (cfg.name ++ " " ++ type ++ ": " ++ msg) := by
  cases hcall : TimeoutFunction.call v opts.timeout cfg.check with
  | diverges p => simp [Check.run, hcall] at hexit
  | completes p r =>
    cases hcb : cfg.cleanup_callback with
    | some cb =>
      cases r with
      | ok m =>
        simp [Check.run, hcall, hcb, Check._exit, ExitResult.prependOutput] at hexit
      | error e =>
        cases e <;>
          simp [Check.run, hcall, hcb, Check._exit, ExitResult.prependOutput] at hexit
    | none =>
      cases r with
      | ok m =>
        rw [run_eq_exited v cfg opts p (.ok m) "OK" m 0 hcall rfl rfl hcb] at hexit
        injection hexit with hout hcode
        subst hcode
        exact ⟨"OK", m, by simp [Check.classify, hcall, classifyResult], rfl, by decide,
          by rw [← hout]; exact getLast?_append_singleton _ _⟩
      | error e =>
        cases e with
        | timeoutException =>
          cases v with
          | nagios =>
            rw [run_eq_exited .nagios cfg opts p (.error .timeoutException)
              "CRITICAL" (timeoutMessage opts.timeout) 2 hcall rfl rfl hcb] at hexit
            injection hexit with hout hcode
            subst hcode
            exact ⟨"CRITICAL", timeoutMessage opts.timeout,
              by simp [Check.classify, hcall, classifyResult, timeoutStatus], rfl, by decide,
              by rw [← hout]; exact getLast?_append_singleton _ _⟩
          | pynag =>
            rw [run_eq_exited .pynag cfg opts p (.error .timeoutException)
              "UNKNOWN" (timeoutMessage opts.timeout) 3 hcall rfl rfl hcb] at hexit
            injection hexit with hout hcode
            subst hcode
            exact ⟨"UNKNOWN", timeoutMessage opts.timeout,
              by simp [Check.classify, hcall, classifyResult, timeoutStatus], rfl, by decide,
              by rw [← hout]; exact getLast?_append_singleton _ _⟩
        | executionCritical m =>
          rw [run_eq_exited v cfg opts p (.error (.executionCritical m))
            "CRITICAL" m 2 hcall rfl rfl hcb] at hexit
          injection hexit with hout hcode
          subst hcode
          exact ⟨"CRITICAL", m, by simp [Check.classify, hcall, classifyResult], rfl, by decide,
            by rw [← hout]; exact getLast?_append_singleton _ _⟩
        | executionWarning m =>
          rw [run_eq_exited v cfg opts p (.error (.executionWarning m))
            "WARNING" m 1 hcall rfl rfl hcb] at hexit
          injection hexit with hout hcode
          subst hcode
          exact ⟨"WARNING", m, by simp [Check.classify, hcall, classifyResult], rfl, by decide,
            by rw [← hout]; exact getLast?_append_singleton _ _⟩
        | executionUnknown m =>
          rw [run_eq_exited v cfg opts p (.error (.executionUnknown m))
            "UNKNOWN" m 3 hcall rfl rfl hcb] at hexit
          injection hexit with hout hcode
          subst hcode
          exact ⟨"UNKNOWN", m, by simp [Check.classify, hcall, classifyResult], rfl, by decide,
            by rw [← hout]; exact getLast?_append_singleton _ _⟩
        | executionDependant m =>
          rw [run_eq_exited v cfg opts p (.error (.executionDependant m))
            "DEPENDANT" m 4 hcall rfl rfl hcb] at hexit
          injection hexit with hout hcode
          subst hcode
          exact ⟨"DEPENDANT", m, by simp [Check.classify, hcall, classifyResult], rfl, by decide,
            by rw [← hout]; exact getLast?_append_singleton _ _⟩
        | typeError m => simp [Check.run, hcall] at hexit
        | attributeError m => simp [Check.run, hcall] at hexit
        | otherError m => simp [Check.run, hcall] at hexit

/-- Witness for C1: a concrete warning run that exits with code 1. -/
theorem run_exit_code_and_status_line_match_classification_witness :
    ∃ type msg,
      Check.classify .nagios 10 (.finishes 0 [] (.error (.executionWarning "load high")))
          = some (type, msg) ∧
      returnCode type = some 1 ∧
      (type, 1) ∈ RETURN_CODES ∧
      (["W WARNING: load high"] : List String).getLast?
          = some ("W" ++ " " ++ type ++ ": " ++ msg) :=
  run_exit_code_and_status_line_match_classification .nagios
    ⟨"W", .finishes 0 [] (.error (.executionWarning "load high")), none⟩
    ⟨false, 10, 60⟩ ["W WARNING: load high"] 1 rfl

/-- Claim C2: on a `Check` with no cleanup callback registered (a
registered callback makes `_exit` crash on every path — see the C3
analysis), a check function that finishes within the time bound returning
message `M` makes `run` exit with code 0, echoing `M` verbatim as the
message; one that raises the distinguished critical signal
`ExecutionCritical` carrying `M` within the bound makes `run` exit with
code 2 and message `M`. -/
theorem check_return_and_critical_signal_exit_codes
    (v : Variant) (cfg : CheckConfig) (opts : Options) (M : String)
    (d : Nat) (printed : List String)
    (hwithin : opts.timeout = 0 ∨ d < opts.timeout)
    (hnone : cfg.cleanup_callback = none) :
    (cfg.check = .finishes d printed (.ok M) →
      ∃ out, Check.run v cfg opts = .exited out 0 ∧
        out.getLast? = some (statusLine cfg.name "OK" M)) ∧
    (cfg.check = .finishes d printed (.error (.executionCritical M)) →
      ∃ out, Check.run v cfg opts = .exited out 2 ∧
        out.getLast? = some (statusLine cfg.name "CRITICAL" M)) := by
  constructor
  · intro hchk
    have hcall : TimeoutFunction.call v opts.timeout cfg.check = .completes printed (.ok M) := by
      rw [hchk]
      exact call_finishes_within v opts.timeout d printed _ hwithin
    refine ⟨_, run_eq_exited v cfg opts printed _ "OK" M 0 hcall rfl rfl hnone, ?_⟩
    exact getLast?_append_singleton _ _
  · intro hchk
    have hcall : TimeoutFunction.call v opts.timeout cfg.check
        = .completes printed (.error (.executionCritical M)) := by
      rw [hchk]
      exact call_finishes_within v opts.timeout d printed _ hwithin
    refine ⟨_, run_eq_exited v cfg opts printed _ "CRITICAL" M 2 hcall rfl rfl hnone, ?_⟩
    exact getLast?_append_singleton _ _

/-- Witness for C2: a concrete successful run and a concrete critical
run. -/
theorem check_return_and_critical_signal_exit_codes_witness :
    (∃ out, Check.run .nagios ⟨"PING", .finishes 0 [] (.ok "pong"), none⟩ ⟨false, 10, 60⟩
        = .exited out 0 ∧ out.getLast? = some (statusLine "PING" "OK" "pong")) ∧
    (∃ out, Check.run .nagios ⟨"PING", .finishes 0 [] (.error (.executionCritical "dead")), none⟩
        ⟨false, 10, 60⟩ = .exited out 2 ∧
      out.getLast? = some (statusLine "PING" "CRITICAL" "dead")) :=
  ⟨(check_return_and_critical_signal_exit_codes .nagios
      ⟨"PING", .finishes 0 [] (.ok "pong"), none⟩ ⟨false, 10, 60⟩ "pong" 0 []
      (Or.inr (by decide)) rfl).1 rfl,
   (check_return_and_critical_signal_exit_codes .nagios
      ⟨"PING", .finishes 0 [] (.error (.executionCritical "dead")), none⟩ ⟨false, 10, 60⟩ "dead" 0 []
      (Or.inr (by decide)) rfl).2 rfl⟩

/-- Any status appearing in the `RETURN_CODES` table is one of the five
status words. -/
theorem mem_RETURN_CODES_status (type : String) (code : Nat)
    (h : (type, code) ∈ RETURN_CODES) :
    type ∈ ["OK", "WARNING", "CRITICAL", "UNKNOWN", "DEPENDANT"] := by
  simp only [RETURN_CODES, List.mem_cons, List.not_mem_nil, or_false,
    Prod.mk.injEq] at h
  rcases h with ⟨h, -⟩ | ⟨h, -⟩ | ⟨h, -⟩ | ⟨h, -⟩ | ⟨h, -⟩ <;> simp [h]

/-- Claim C3 (code bug): the cleanup machinery of `_exit` never runs.
The debug call at src/nagios/__init__.py line 202 /
src/src/pynag/__init__.py line 194 eagerly evaluates
`self.cleanup_callback.function.__name__`, and every callback
`set_cleanup` can register (a plain function exposing `__name__`) has no
`function` attribute; so with any registered callback — here a perfectly
well-behaved one that would complete instantly — `_exit` raises
`AttributeError` before the callback is invoked, before stdout is
restored and before the status line or `sys.exit` is reached, in both
variants.  Absence of a callback is indeed a silent no-op, as the third
conjunct shows.  The claim (cleanup failures fully absorbed, exit
sequence never crashes) matches the clear intent of the `try`/`except
TimeoutException` block just below the debug line and of `set_cleanup`'s
docstring ("The callback will be invoked just before the check exits"),
which the eager attribute access defeats. -/
theorem registered_cleanup_aborts_every_exit :
    Check.run .nagios
        ⟨"N", .finishes 0 [] (.ok "done"), some (.finishes 0 [] (.ok ()))⟩
        ⟨false, 10, 60⟩ = .crashed [] (.attributeError "function") ∧
    Check.run .pynag
        ⟨"N", .finishes 0 [] (.ok "done"), some (.finishes 0 [] (.ok ()))⟩
        ⟨false, 10, 60⟩ = .crashed [] (.attributeError "function") ∧
    Check.run .nagios ⟨"N", .finishes 0 [] (.ok "done"), none⟩ ⟨false, 10, 60⟩
        = .exited [statusLine "N" "OK" "done"] 0 ∧
    (Check.run .nagios
        ⟨"N", .finishes 0 [] (.ok "done"), some (.finishes 0 [] (.ok ()))⟩
        ⟨false, 10, 60⟩).isExited = false :=
  ⟨rfl, rfl, rfl, rfl⟩

/-- Claim C4 counterexample: a check function raising an exception that is
neither the timeout signal nor one of the four distinguished signals makes
`run` propagate it to the caller — no outcome classification is reached
and the process does not exit through the defined exit mechanism. -/
theorem run_propagates_unrecognized_exception_counterexample :
    Check.run .nagios ⟨"N", .finishes 0 [] (.error (.otherError "ValueError")), none⟩
        ⟨false, 10, 60⟩ = .crashed [] (.otherError "ValueError") ∧
    (Check.run .nagios ⟨"N", .finishes 0 [] (.error (.otherError "ValueError")), none⟩
        ⟨false, 10, 60⟩).isExited = false ∧
    Check.classify .nagios 10 (.finishes 0 [] (.error (.otherError "ValueError"))) = none :=
  ⟨rfl, rfl, rfl⟩

/-- Claim C4 amended: whenever the timed check invocation returns control
with a value, the timeout signal, or one of the four distinguished
signals — i.e. `run` classifies the outcome — and no cleanup callback is
registered (a registered callback makes `_exit` crash on every path — see
the C3 analysis), exactly one of the five outcomes is reached
(classification is a function of the run) and the process exits through
the defined exit mechanism; a check raising any other exception instead
propagates it out of `run` (see the counterexample). -/
theorem run_reaches_single_outcome_when_classified
    (v : Variant) (cfg : CheckConfig) (opts : Options) (type msg : String)
    (hclass : Check.classify v opts.timeout cfg.check = some (type, msg))
    (hnone : cfg.cleanup_callback = none) :
    (∀ type' msg', Check.classify v opts.timeout cfg.check = some (type', msg') →
      type' = type ∧ msg' = msg) ∧
    type ∈ ["OK", "WARNING", "CRITICAL", "UNKNOWN", "DEPENDANT"] ∧
    (Check.run v cfg opts).isExited = true := by
  obtain ⟨code, hcode, hmem⟩ := classify_returnCode v opts.timeout cfg.check type msg hclass
  refine ⟨?_, mem_RETURN_CODES_status type code hmem, ?_⟩
  · intro t' m' h'
    rw [hclass] at h'
    simp only [Option.some.injEq, Prod.mk.injEq] at h'
    exact ⟨h'.1.symm, h'.2.symm⟩
  · have hclass2 := hclass
    unfold Check.classify at hclass2
    cases hcall : TimeoutFunction.call v opts.timeout cfg.check with
    | diverges p => rw [hcall] at hclass2; simp at hclass2
    | completes p r =>
      rw [hcall] at hclass2
      rw [run_eq_exited v cfg opts p r type msg code hcall hclass2 hcode hnone]
      rfl

/-- Witness for the amended C4: a concrete dependant run. -/
theorem run_reaches_single_outcome_when_classified_witness :
    "DEPENDANT" ∈ ["OK", "WARNING", "CRITICAL", "UNKNOWN", "DEPENDANT"] ∧
    (Check.run .nagios ⟨"D", .finishes 0 [] (.error (.executionDependant "waiting")), none⟩
        ⟨false, 10, 60⟩).isExited = true :=
  ⟨(run_reaches_single_outcome_when_classified .nagios
      ⟨"D", .finishes 0 [] (.error (.executionDependant "waiting")), none⟩
      ⟨false, 10, 60⟩ "DEPENDANT" "waiting" rfl rfl).2.1,
   (run_reaches_single_outcome_when_classified .nagios
      ⟨"D", .finishes 0 [] (.error (.executionDependant "waiting")), none⟩
      ⟨false, 10, 60⟩ "DEPENDANT" "waiting" rfl rfl).2.2⟩

/-- Claim C5 counterexample: with a timeout of 1 second the timed-out
run's printed message is "Timeout reached (1.000000 second)" — the
timeout value is rendered by Python's `%f` — so the message does not
contain the claimed substring "1 second". -/
theorem timeout_message_lacks_plain_second_counterexample :
    Check.run .nagios ⟨"HANG", .hangs [], none⟩ ⟨false, 1, 60⟩
      = .exited [statusLine "HANG" "CRITICAL" (timeoutMessage 1)] 2 ∧
    timeoutMessage 1 = "Timeout reached (1.000000 second)" ∧
    strContains (statusLine "HANG" "CRITICAL" (timeoutMessage 1)) "1 second" = false := by
  refine ⟨rfl, rfl, ?_⟩
  decide

/-- Claim C5 amended: when the check timeout elapses, the printed message
includes the timeout value formatted by Python's `%f` (six decimal
places) with correct pluralization of "second(s)": a timeout of 1 yields
"1.000000 second" (singular, in both variants), a timeout of 2 yields
"2.000000 seconds" (plural). -/
theorem timeout_message_float_format_and_pluralization :
    Check.run .nagios ⟨"HANG", .hangs [], none⟩ ⟨false, 1, 60⟩
      = .exited ["HANG CRITICAL: Timeout reached (1.000000 second)"] 2 ∧
    Check.run .pynag ⟨"HANG", .hangs [], none⟩ ⟨false, 1, 60⟩
      = .exited ["HANG UNKNOWN: Timeout reached (1.000000 second)"] 3 ∧
    Check.run .nagios ⟨"HANG", .hangs [], none⟩ ⟨false, 2, 60⟩
      = .exited ["HANG CRITICAL: Timeout reached (2.000000 seconds)"] 2 ∧
    strContains (timeoutMessage 1) "1.000000 second" = true ∧
    strContains (timeoutMessage 1) "1.000000 seconds" = false ∧
    strContains (timeoutMessage 2) "2.000000 seconds" = true := by
  refine ⟨rfl, rfl, rfl, ?_, ?_, ?_⟩ <;> decide

/-- Claim C6: the two variants classify a check timeout differently — for
the same timed-out check the nagios variant exits CRITICAL (code 2) while
the pynag variant exits UNKNOWN (code 3) — and whenever the timed check
invocation does not end in the timeout signal, the two variants produce
identical results. -/
theorem variants_diverge_only_on_timeout_status
    (cfg : CheckConfig) (opts : Options) :
    (∀ printed,
      TimeoutFunction.call .pynag opts.timeout cfg.check
          = .completes printed (.error .timeoutException) →
      cfg.cleanup_callback = none →
      Check.run .nagios cfg opts = .exited
        ((if opts.verbose then printed else []) ++
          [statusLine cfg.name "CRITICAL" (timeoutMessage opts.timeout)]) 2 ∧
      Check.run .pynag cfg opts = .exited
        ((if opts.verbose then printed else []) ++
          [statusLine cfg.name "UNKNOWN" (timeoutMessage opts.timeout)]) 3) ∧
    ((TimeoutFunction.call .pynag opts.timeout cfg.check).timedOut = false →
      Check.run .nagios cfg opts = Check.run .pynag cfg opts) := by
  constructor
  · intro printed hcallP hnone
    have hcallN : TimeoutFunction.call .nagios opts.timeout cfg.check
        = .completes printed (.error .timeoutException) := by
      rw [call_eq_callPynag]
      exact hcallP
    exact ⟨run_eq_exited .nagios cfg opts printed _ "CRITICAL" (timeoutMessage opts.timeout) 2
        hcallN rfl rfl hnone,
      run_eq_exited .pynag cfg opts printed _ "UNKNOWN" (timeoutMessage opts.timeout) 3
        hcallP rfl rfl hnone⟩
  · intro hnot
    have hN : TimeoutFunction.call .nagios opts.timeout cfg.check
        = TimeoutFunction.call .pynag opts.timeout cfg.check := by
      rw [call_eq_callPynag, call_eq_callPynag]
    cases hcall : TimeoutFunction.call .pynag opts.timeout cfg.check with
    | diverges p =>
      rw [hcall] at hN
      simp [Check.run, hN, hcall]
    | completes p r =>
      rw [hcall] at hN
      cases r with
      | ok m => simp [Check.run, hN, hcall, exit_variant_irrelevant]
      | error e =>
        cases e with
        | timeoutException =>
          rw [hcall] at hnot
          simp [CallOutcome.timedOut] at hnot
        | executionCritical m => simp [Check.run, hN, hcall, exit_variant_irrelevant]
        | executionWarning m => simp [Check.run, hN, hcall, exit_variant_irrelevant]
        | executionUnknown m => simp [Check.run, hN, hcall, exit_variant_irrelevant]
        | executionDependant m => simp [Check.run, hN, hcall, exit_variant_irrelevant]
        | typeError m => simp [Check.run, hN, hcall]
        | attributeError m => simp [Check.run, hN, hcall]
        | otherError m => simp [Check.run, hN, hcall]

/-- Witness for C6: the same hanging check under a 1-second timeout in
both variants. -/
theorem variants_diverge_only_on_timeout_status_witness :
    Check.run .nagios ⟨"T", .hangs [], none⟩ ⟨false, 1, 60⟩
      = .exited [statusLine "T" "CRITICAL" (timeoutMessage 1)] 2 ∧
    Check.run .pynag ⟨"T", .hangs [], none⟩ ⟨false, 1, 60⟩
      = .exited [statusLine "T" "UNKNOWN" (timeoutMessage 1)] 3 :=
  (variants_diverge_only_on_timeout_status ⟨"T", .hangs [], none⟩ ⟨false, 1, 60⟩).1 [] rfl rfl

/-- Claim C7 (code bug): `set_cleanup` does raise `TypeError`
synchronously on a non-callable, non-None argument, as claimed; but
called with no argument (None), instead of unregistering the callback it
raises `AttributeError` — both variants eagerly evaluate
`cleanup.__name__` while building the `nagios_debug` message — so the
assignment `self.cleanup_callback = cleanup` is never reached and the
previous callback stays registered, contrary to the claim and to the
method's own docstring ("To unregister a callback, call this function
with no argument"). -/
theorem set_cleanup_none_raises_attribute_error :
    Check.set_cleanup (some (.hangs [])) .notCallable
      = .error (.typeError "Cleanup callback argument must be a callable object") ∧
    Check.set_cleanup (some (.hangs [])) .noneArg
      = .error (.attributeError "__name__") ∧
    Check.set_cleanup (some (.hangs [])) (.callableFunc (.finishes 0 [] (.ok ())))
      = .ok (some (.finishes 0 [] (.ok ()))) :=
  ⟨rfl, rfl, rfl⟩

/-- Claim C9: on a `Check` with no cleanup callback registered (a
registered callback makes `_exit` crash before printing anything — see
the C3 analysis), in non-verbose mode text printed by the check function
is diverted to the `NullStream` and does not appear in the final output,
whose single line is the status line printed to the restored original
stdout; in verbose mode the check's printed text does appear, before the
final status line. -/
theorem verbose_controls_check_output_visibility
    (v : Variant) (cfg : CheckConfig) (opts : Options)
    (printed : List String) (r : Except Exc String) (type msg : String) (code : Nat)
    (hcall : TimeoutFunction.call v opts.timeout cfg.check = .completes printed r)
    (hr : classifyResult v opts.timeout r = some (type, msg))
    (hcode : returnCode type = some code)
    (hnone : cfg.cleanup_callback = none) :
    (opts.verbose = false →
      Check.run v cfg opts = .exited [statusLine cfg.name type msg] code) ∧
    (opts.verbose = true →
      Check.run v cfg opts = .exited
        (printed ++ [statusLine cfg.name type msg]) code) := by
  have hrun := run_eq_exited v cfg opts printed r type msg code hcall hr hcode hnone
  constructor
  · intro hv
    rw [hrun, hv]
    simp
  · intro hv
    rw [hrun, hv]
    simp

/-- Witness for C9: the same printing check in non-verbose and verbose
runs. -/
theorem verbose_controls_check_output_visibility_witness :
    Check.run .nagios ⟨"V", .finishes 0 ["dbg"] (.ok "fine"), none⟩ ⟨false, 10, 60⟩
      = .exited [statusLine "V" "OK" "fine"] 0 ∧
    Check.run .nagios ⟨"V", .finishes 0 ["dbg"] (.ok "fine"), none⟩ ⟨true, 10, 60⟩
      = .exited (["dbg"] ++ [statusLine "V" "OK" "fine"]) 0 :=
  ⟨(verbose_controls_check_output_visibility .nagios
      ⟨"V", .finishes 0 ["dbg"] (.ok "fine"), none⟩ ⟨false, 10, 60⟩
      ["dbg"] (.ok "fine") "OK" "fine" 0 rfl rfl rfl rfl).1 rfl,
   (verbose_controls_check_output_visibility .nagios
      ⟨"V", .finishes 0 ["dbg"] (.ok "fine"), none⟩ ⟨true, 10, 60⟩
      ["dbg"] (.ok "fine") "OK" "fine" 0 rfl rfl rfl rfl).2 rfl⟩

/-- Claim C8: a timeout of 0 disables the time bound in both variants'
`TimeoutFunction`: the wrapped invocation behaves exactly like the bare
call — an unbounded run for a hanging callable, and otherwise the
callable's own result returned unchanged, with no timeout condition
signalled by the wrapper (which `directCall` by construction never
produces). -/
theorem timeout_zero_disables_bound {α : Type} (v : Variant) (b : CallBehavior α) :
    TimeoutFunction.call v 0 b = directCall b := by
  cases v <;> cases b <;>
    simp [TimeoutFunction.call, TimeoutFunction.callNagios, TimeoutFunction.callPynag,
      directCall]

/-- Claim C10: each of the five public exit operations, called on a
freshly constructed `Check` before `run`, crashes with `AttributeError`
on `self.start_time` (which only `run` assigns) instead of exiting
cleanly — even though the constructor pre-set `self.cleanup_timeout = 60`
precisely so that `_exit` before `run` would not explode. -/
theorem exit_methods_before_run_raise_attribute_error
    (v : Variant) (name m : String) (suppressed : Bool) :
    (Check.init name).cleanup_timeout = 60 ∧
    (Check.init name).start_time = none ∧
    Check.success v (Check.init name) suppressed m = .crashed [] (.attributeError "start_time") ∧
    Check.critical v (Check.init name) suppressed m = .crashed [] (.attributeError "start_time") ∧
    Check.warning v (Check.init name) suppressed m = .crashed [] (.attributeError "start_time") ∧
    Check.unknown v (Check.init name) suppressed m = .crashed [] (.attributeError "start_time") ∧
    Check.dependant v (Check.init name) suppressed m = .crashed [] (.attributeError "start_time") :=
  ⟨rfl, rfl, rfl, rfl, rfl, rfl, rfl⟩

end Pynag
